import Mathlib

/-!
Shallow embedding of `.github/scripts/monitoring-dashboard.py` (the
AutomatSEO upstream monitoring dashboard) and proofs about it.

Modelling conventions:
* Python strings are Lean `String`s; `str.lower()` is `pyLower`
  (character-wise `Char.toLower`), and the Python substring test
  `needle in hay` is `containsSub` (list-infix on the character lists).
* Calendar dates and timestamps are modelled as integers (days); the
  `.date()` projection of a timestamp is already applied, so comparing
  a timestamp's calendar date with a requested date is integer equality.
* A nullable field (`body`, `closed_at`, `published_at`) is an `Option`.
* Python float arithmetic in the two derived statistics (sync efficiency,
  release frequency) is modelled with exact rationals `ℚ`; `round(x, 2)`
  is `pyRound2`, round-half-to-even at two decimal places, matching
  Python's documented rounding mode.
* Network fetches are parameters: each function takes the collections the
  script would have fetched (or an `Except` when the surrounding `try`
  block makes the fetch's failure observable).
-/

namespace MonitoringDashboard

/-- Model of Python `str.lower()`: character-wise lowercasing. -/
def pyLower (s : String) : String := ⟨s.data.map Char.toLower⟩

/-- Model of the Python substring test `needle in hay`. -/
def containsSub (needle hay : String) : Bool := decide (needle.data <:+: hay.data)

/-! ### Trend analyzer: issue classification (lines 146–161)

`analyze_upstream_trends` builds, for each recent issue,
`text = f"{title} {body}"` where `title = issue.title.lower()` and
`body = issue.body.lower() if issue.body else ""`, then walks an
`if/elif` chain of keyword tests. -/

/-- The classification text of an issue (lines 147–149):
lowercased title, a space, then the lowercased body, the body being
replaced by `""` when it is `None` (or falsy, i.e. empty). -/
def classificationText (title : String) (body : Option String) : String :=
  pyLower title ++ " " ++
    (match body with
     | some b => if b = "" then "" else pyLower b
     | none => "")

/-- The issue `if/elif` keyword chain (lines 152–161), transcribed from the
source: bug-like, then feature-like, then documentation, then performance,
else `"other"`. -/
def classifyIssue (text : String) : String :=
  if ["bug", "error", "crash", "fix"].any (fun k => containsSub k text) then "bug"
  else if ["feature", "enhancement", "add"].any (fun k => containsSub k text) then "feature"
  else if ["docs", "documentation", "readme"].any (fun k => containsSub k text) then "documentation"
  else if ["performance", "optimization", "speed"].any (fun k => containsSub k text) then "performance"
  else "other"

/-- Spec-side description of the classifier: the ordered category table,
first category whose keyword set has a member occurring in the text,
falling back to `"other"`. -/
def categoryTable : List (String × List String) :=
  [("bug", ["bug", "error", "crash", "fix"]),
   ("feature", ["feature", "enhancement", "add"]),
   ("documentation", ["docs", "documentation", "readme"]),
   ("performance", ["performance", "optimization", "speed"])]

/-- First-match-wins evaluation of an ordered category table. -/
def firstMatch : List (String × List String) → String → String
  | [], _ => "other"
  | (c, kws) :: rest, text =>
      if kws.any (fun k => containsSub k text) then c else firstMatch rest text

example : classifyIssue "crash when saving" = "bug" := by decide
example : classifyIssue "please add dark mode" = "feature" := by decide
example : classifyIssue "nice app" = "other" := by decide
example : classifyIssue "feature request: fix the bug" = "bug" := by decide

/-! ### Data model

GitHub API objects, restricted to the fields the script reads. -/

/-- An issue as the script reads it: title, nullable body, creation /
nullable closing / update timestamps (already projected to calendar-day
integers), label names, and the author's login. -/
structure Issue where
  title : String := ""
  body : Option String := none
  created_at : Int := 0
  closed_at : Option Int := none
  updated_at : Int := 0
  labels : List String := []
  user : String := ""
deriving Repr, DecidableEq

/-- A pull request as the script reads it. `merged_at` is only read under
the `merged` guard (line 80), where the API guarantees it is present, so it
is modelled as a plain day number. -/
structure PullRequest where
  title : String := ""
  body : Option String := none
  created_at : Int := 0
  merged : Bool := false
  merged_at : Int := 0
  user : String := ""
deriving Repr, DecidableEq

/-- A release as the script reads it: just the nullable publication
timestamp (projected to a calendar-day integer). -/
structure Release where
  published_at : Option Int := none
deriving Repr, DecidableEq

/-- `ActivityMetrics` dataclass (lines 26–37). The `date` field keeps the
day number standing in for the ISO string. -/
structure ActivityMetrics where
  date : Int
  upstream_issues_opened : Nat := 0
  upstream_issues_closed : Nat := 0
  upstream_prs_opened : Nat := 0
  upstream_prs_merged : Nat := 0
  upstream_releases : Nat := 0
  downstream_tasks_created : Nat := 0
  downstream_tasks_completed : Nat := 0
  sync_activities : Nat := 0
deriving Repr, DecidableEq

/-- Model of `repo.get_issues(labels=[l], ...)`: the issues carrying the
label `l`. -/
def issuesWithLabel (l : String) (issues : List Issue) : List Issue :=
  issues.filter (fun i => i.labels.contains l)

/-- The label list of line 109. -/
def sync_labels : List String := ["upstream-sync", "upstream-pr", "upstream-release"]

/-- `collect_daily_metrics` (lines 48–124) over pre-fetched collections:
filter each collection by comparing the relevant timestamp's calendar date
with `date` and count. A `None` timestamp fails the `x and x.date() == date`
guard, so it is never counted. -/
def collect_daily_metrics (date : Int) (upstream_issues : List Issue)
    (upstream_prs : List PullRequest) (releases : List Release)
    (downstream_issues : List Issue) : ActivityMetrics :=
  let issues_on_date := upstream_issues.filter (fun i => i.created_at == date)
  let issues_closed_on_date := upstream_issues.filter (fun i =>
    match i.closed_at with
    | some c => c == date
    | none => false)
  let prs_on_date := upstream_prs.filter (fun p => p.created_at == date)
  let prs_merged_on_date := upstream_prs.filter (fun p =>
    p.merged && p.merged_at == date)
  let releases_on_date := releases.filter (fun r =>
    match r.published_at with
    | some p => p == date
    | none => false)
  let ds := issuesWithLabel "upstream-sync" downstream_issues
  let tasks_created_on_date := ds.filter (fun i => i.created_at == date)
  let tasks_completed_on_date := ds.filter (fun i =>
    match i.closed_at with
    | some c => c == date
    | none => false)
  let sync_acts := sync_labels.foldl (fun acc l =>
    acc + ((issuesWithLabel l downstream_issues).filter
      (fun i => i.updated_at == date)).length) 0
  { date := date
    upstream_issues_opened := issues_on_date.length
    upstream_issues_closed := issues_closed_on_date.length
    upstream_prs_opened := prs_on_date.length
    upstream_prs_merged := prs_merged_on_date.length
    upstream_releases := releases_on_date.length
    downstream_tasks_created := tasks_created_on_date.length
    downstream_tasks_completed := tasks_completed_on_date.length
    sync_activities := sync_acts }

/-! ### Trend analyzer: release frequency and contributor ranking
(lines 194–206) -/

/-- Round-half-to-even of a rational to an integer, the rounding mode of
Python's `round`. -/
def roundHalfEven (q : ℚ) : ℤ :=
  let f := ⌊q⌋
  if q - f < 1/2 then f
  else if q - f > 1/2 then f + 1
  else if f % 2 = 0 then f else f + 1

/-- Model of Python `round(x, 2)`. -/
def pyRound2 (q : ℚ) : ℚ := (roundHalfEven (q * 100) : ℚ) / 100

/-- Release frequency (lines 194–200) over the publication days of the
fetched releases, given most-recent first as the API returns them:
only computed when more than one release exists; otherwise it keeps the
initial value `0` set on line 133. -/
def release_frequency (pubs : List ℤ) : ℚ :=
  if pubs.length > 1 then
    let latest := pubs.headD 0
    let oldest := pubs.getLastD 0
    let days_diff := latest - oldest
    (pubs.length : ℚ) / max ((days_diff : ℚ) / 30) 1
  else 0

/-- The contributor-sorting comparison: Python's
`sorted(items, key=lambda x: x[1], reverse=True)` is a stable sort that
orders by count descending; a stable sort for a total preorder is unique,
so the stable `List.insertionSort` with this relation computes it. -/
def byCountDesc (a b : String × Nat) : Prop := b.2 ≤ a.2

instance : DecidableRel byCountDesc := fun a b => Nat.decLe b.2 a.2

instance : IsTotal (String × Nat) byCountDesc :=
  ⟨fun a b => Nat.le_total b.2 a.2⟩

instance : IsTrans (String × Nat) byCountDesc :=
  ⟨fun _ _ _ hab hbc => Nat.le_trans hbc hab⟩

/-- Lines 203–206: sort the contributor tally by count descending (stable)
and keep the first 10 entries. The tally is passed as an association list
in dict insertion order. -/
def top_contributors_final (tally : List (String × Nat)) : List (String × Nat) :=
  (tally.insertionSort byCountDesc).take 10

/-! ### Dashboard generation (lines 210–257) -/

/-- The 30 requested dates: today and the preceding 29 days
(lines 218–219). -/
def dates30 (today : ℤ) : List ℤ :=
  (List.range 30).map (fun (i : Nat) => today - (i : ℤ))

/-- The per-day collection loop (lines 217–225): each day's collection may
fail (`Except`); a failure is caught, printed, and the day skipped with
`continue`, so the loop itself is total. -/
def collect_loop (f : ℤ → Except String ActivityMetrics) (dates : List ℤ) :
    List ActivityMetrics :=
  dates.foldl (fun acc d =>
    match f d with
    | .ok m => acc ++ [m]
    | .error _ => acc) []

/-- Summary statistics (lines 231–237, 244): totals over the collected
records and the sync-efficiency value as stored in the summary block,
i.e. `round(sync_efficiency, 2)`. -/
def sync_efficiency_summary (metrics_data : List ActivityMetrics) : ℚ :=
  let total_upstream_issues : Nat := (metrics_data.map (·.upstream_issues_opened)).sum
  let total_downstream_tasks : Nat := (metrics_data.map (·.downstream_tasks_created)).sum
  let sync_efficiency : ℚ :=
    if total_upstream_issues > 0 then
      ((total_downstream_tasks : ℚ) / (total_upstream_issues : ℚ)) * 100
    else 0
  pyRound2 sync_efficiency

/-! ### Last sync time (lines 259–277) -/

/-- Stand-in for `datetime.isoformat()` on a model timestamp. -/
def isoformat (t : ℤ) : String := "T" ++ toString t

/-- Python `max(...)` over a nonempty generator of timestamps. -/
def maxUpdated (i : Issue) (rest : List Issue) : ℤ :=
  rest.foldl (fun a j => max a j.updated_at) i.updated_at

/-- `get_last_sync_time` (lines 259–277). The fetch of the downstream
`upstream-sync` issues (sorted by update time, most recent first) may fail;
the surrounding `try/except` turns any error into `"Unknown"`. Otherwise
the first 5 issues are kept; if none exist the sentinel
`"No recent syncs found"` is returned, else the ISO form of the maximum
`updated_at` among them. -/
def get_last_sync_time (fetch : Except String (List Issue)) : String :=
  match fetch with
  | .error _ => "Unknown"
  | .ok all =>
    match all.take 5 with
    | [] => "No recent syncs found"
    | i :: rest => isoformat (maxUpdated i rest)

/-! ### Entry point (lines 634–681) -/

/-- Observable effects of a run, for the entry-point model. -/
inductive Effect where
  | printed (msg : String)
  | fetched (repo : String)
  | wroteFile (path : String)
deriving Repr, DecidableEq

/-- Python truthiness test `not GITHUB_TOKEN`: true when the variable is
unset or empty. -/
def token_missing (t : Option String) : Bool :=
  match t with
  | none => true
  | some s => s == ""

/-- `main` (lines 634–681) as an effect trace and exit code: if the token
is missing it prints the error and exits with status 1 before anything
else runs; otherwise the rest of the pipeline (fetches, file writes, its
own exit code) happens, abstracted as the `pipeline` parameter. -/
def main_run (github_token : Option String) (pipeline : List Effect × Nat) :
    List Effect × Nat :=
  if token_missing github_token then
    ([Effect.printed "Error: GITHUB_TOKEN environment variable is required"], 1)
  else
    pipeline

/-! ## Theorems -/

/-- Lowercasing distributes over string concatenation. -/
theorem pyLower_append (a b : String) : pyLower (a ++ b) = pyLower a ++ pyLower b := by
  apply String.ext
  show (pyLower (a ++ b)).data = (pyLower a ++ pyLower b).data
  simp [pyLower, String.data_append]

/-- The transcription of the `if/elif` chain agrees with first-match
evaluation of the ordered category table, for every text. -/
theorem classifyIssue_eq_firstMatch (text : String) :
    classifyIssue text = firstMatch categoryTable text := rfl

/-- The classification text built by the code equals the lowercasing of
`title ++ " " ++ body` with an absent body replaced by the empty string. -/
theorem classificationText_eq_pyLower (title : String) (body : Option String) :
    classificationText title body = pyLower (title ++ " " ++ body.getD "") := by
  have hsp : pyLower " " = " " := by decide
  cases body with
  | none =>
      simp only [classificationText, Option.getD, pyLower_append, hsp]
      have : pyLower "" = "" := rfl
      rw [this]
  | some b =>
      by_cases hb : b = ""
      · subst hb
        simp only [classificationText, Option.getD, pyLower_append, hsp]
        rfl
      · simp only [classificationText, Option.getD, pyLower_append, hsp, if_neg hb]

/-- C1: issue classification is deterministic first-match-wins over the
fixed priority order bug, feature, documentation, performance, with
fallback `"other"`: the category the trend analyzer assigns to an issue is
the first category of the ordered table with a keyword occurring in the
lowercased title-plus-body text; and any text containing both a bug
keyword and a feature keyword classifies as `"bug"`. -/
theorem issue_classification_first_match_wins :
    (∀ (title : String) (body : Option String),
      classifyIssue (classificationText title body) =
        firstMatch categoryTable (pyLower (title ++ " " ++ body.getD ""))) ∧
    (∀ text : String,
      (["bug", "error", "crash", "fix"].any (fun k => containsSub k text)) = true →
      (["feature", "enhancement", "add"].any (fun k => containsSub k text)) = true →
      classifyIssue text = "bug") := by
  constructor
  · intro title body
    rw [classificationText_eq_pyLower, classifyIssue_eq_firstMatch]
  · intro text hbug _
    simp only [classifyIssue, hbug, if_true]

/-- Concrete instance of C1: a text containing both the bug keyword
`"bug"` and the feature keyword `"feature"` classifies as `"bug"`. -/
theorem issue_classification_first_match_wins_witness :
    classifyIssue "feature request that causes a bug" = "bug" :=
  issue_classification_first_match_wins.2 "feature request that causes a bug"
    (by decide) (by decide)

/-- C8: an issue with `body = None` is classified without error: its
classification text is the lowercased title followed by a single space. -/
theorem classificationText_none_body (title : String) :
    classificationText title none = pyLower title ++ " " := by
  show pyLower title ++ " " ++ "" = pyLower title ++ " "
  apply String.ext
  simp [String.data_append]

/-- C2 counterexample: with one collected record holding 3 upstream issues
opened and 1 downstream task created, the summary's sync-efficiency value
is `round((1/3)*100, 2) = 33.33`, not the exact `(1/3)*100` the claim
states. -/
theorem sync_efficiency_exact_counterexample :
    ¬ (sync_efficiency_summary [⟨0, 3, 0, 0, 0, 0, 1, 0, 0⟩] =
        ((1 : ℚ) / 3) * 100) := by
  intro h
  obtain ⟨n, hn⟩ : ∃ n : ℤ,
      sync_efficiency_summary [⟨0, 3, 0, 0, 0, 0, 1, 0, 0⟩] = (n : ℚ) / 100 :=
    ⟨roundHalfEven _, rfl⟩
  rw [hn] at h
  have h2 : (n : ℚ) * 3 = 10000 := by
    field_simp at h
    linarith
  have h3 : n * 3 = 10000 := by exact_mod_cast h2
  omega

/-- C2 (amended): the summary's sync-efficiency value equals the ratio
(total downstream tasks created ÷ total upstream issues opened) × 100
rounded half-to-even to two decimal places, and it is 0 when the total of
upstream issues opened is 0 — the division is guarded, so no
division-by-zero error is raised. -/
theorem sync_efficiency_summary_spec (metrics_data : List ActivityMetrics) :
    ((metrics_data.map (·.upstream_issues_opened)).sum = 0 →
      sync_efficiency_summary metrics_data = 0) ∧
    (0 < (metrics_data.map (·.upstream_issues_opened)).sum →
      sync_efficiency_summary metrics_data =
        pyRound2 (((((metrics_data.map (·.downstream_tasks_created)).sum : ℕ) : ℚ) /
          (((metrics_data.map (·.upstream_issues_opened)).sum : ℕ) : ℚ)) * 100)) := by
  constructor
  · intro h
    have hz : pyRound2 0 = 0 := by
      simp only [pyRound2, roundHalfEven]
      norm_num
    simp only [sync_efficiency_summary]
    split
    · omega
    · exact hz
  · intro h
    simp only [sync_efficiency_summary]
    split
    · rfl
    · omega

/-- Concrete instance of C2: zero denominator gives 0; a run with
4 upstream issues and 2 downstream tasks gives the rounded 50%. -/
theorem sync_efficiency_summary_spec_witness :
    sync_efficiency_summary [] = 0 ∧
    sync_efficiency_summary [⟨0, 4, 0, 0, 0, 0, 2, 0, 0⟩] =
      pyRound2 ((((([(⟨0, 4, 0, 0, 0, 0, 2, 0, 0⟩ : ActivityMetrics)].map
          (·.downstream_tasks_created)).sum : ℕ) : ℚ) /
        ((([(⟨0, 4, 0, 0, 0, 0, 2, 0, 0⟩ : ActivityMetrics)].map
          (·.upstream_issues_opened)).sum : ℕ) : ℚ)) * 100) :=
  ⟨(sync_efficiency_summary_spec []).1 rfl,
   (sync_efficiency_summary_spec [⟨0, 4, 0, 0, 0, 0, 2, 0, 0⟩]).2 (by decide)⟩

/-- C3: release frequency is 0 with fewer than 2 releases; with 2 or more
it is `count / max(days_between_newest_and_oldest / 30, 1)`; and for
exactly 2 releases 30 days apart it computes to exactly 2. -/
theorem release_frequency_spec :
    (∀ pubs : List ℤ, pubs.length < 2 → release_frequency pubs = 0) ∧
    (∀ pubs : List ℤ, 2 ≤ pubs.length →
      release_frequency pubs =
        (pubs.length : ℚ) /
          max (((pubs.headD 0 - pubs.getLastD 0 : ℤ) : ℚ) / 30) 1) ∧
    release_frequency [30, 0] = 2 := by
  refine ⟨?_, ?_, ?_⟩
  · intro pubs h
    have : ¬ pubs.length > 1 := by omega
    simp only [release_frequency, if_neg this]
  · intro pubs h
    have : pubs.length > 1 := by omega
    simp only [release_frequency, if_pos this]
  · simp only [release_frequency]
    norm_num [List.getLastD]

/-- Concrete instance of C3: a single release reports 0; two releases
30 days apart report `2 / max(30/30, 1)`. -/
theorem release_frequency_spec_witness :
    release_frequency [(5 : ℤ)] = 0 ∧
    release_frequency [(30 : ℤ), 0] =
      ((([(30 : ℤ), 0] : List ℤ).length : ℚ) /
        max (((([(30 : ℤ), 0] : List ℤ).headD 0 -
          ([(30 : ℤ), 0] : List ℤ).getLastD 0 : ℤ) : ℚ) / 30) 1) :=
  ⟨release_frequency_spec.1 [5] (by decide),
   release_frequency_spec.2.1 [30, 0] (by decide)⟩

/-- Inserting an entry into a list moves it past exactly the entries with
a strictly greater count, so the entries of any fixed count keep their
order, with the inserted entry in front of its own count class. -/
theorem filter_orderedInsert_byCountDesc (c : Nat) (x : String × Nat)
    (l : List (String × Nat)) :
    (l.orderedInsert byCountDesc x).filter (fun p => p.2 == c) =
      if x.2 == c then x :: l.filter (fun p => p.2 == c)
      else l.filter (fun p => p.2 == c) := by
  induction l with
  | nil =>
      cases hxc : x.2 == c <;>
        simp [List.orderedInsert, List.filter, hxc]
  | cons b l ih =>
      simp only [List.orderedInsert]
      by_cases hxb : byCountDesc x b
      · rw [if_pos hxb]
        cases hxc : x.2 == c <;> simp [List.filter_cons, hxc]
      · rw [if_neg hxb]
        have hlt : x.2 < b.2 := by
          simp only [byCountDesc] at hxb
          omega
        cases hxc : x.2 == c with
        | true =>
            have hbc : (b.2 == c) = false := by
              have hxc' : x.2 = c := by simpa using hxc
              simp only [beq_eq_false_iff_ne, ne_eq]
              omega
            simp [List.filter_cons, hbc, ih, hxc]
        | false =>
            simp [List.filter_cons, ih, hxc]

/-- The stable sort of the contributor tally preserves, for each count
value, the original relative order of the entries carrying that count. -/
theorem filter_insertionSort_byCountDesc (c : Nat) (l : List (String × Nat)) :
    (l.insertionSort byCountDesc).filter (fun p => p.2 == c) =
      l.filter (fun p => p.2 == c) := by
  induction l with
  | nil => rfl
  | cons b l ih =>
      simp only [List.insertionSort]
      rw [filter_orderedInsert_byCountDesc, ih]
      cases hbc : b.2 == c <;> simp [List.filter_cons, hbc]

/-- C4: the final top-contributors mapping has at most 10 entries, no
repeated contributor identity, is ordered by count descending, and
entries of equal count keep their original (insertion) relative order:
filtering the output at any fixed count yields a prefix of the input
filtered at that count. -/
theorem top_contributors_spec (tally : List (String × Nat))
    (hkeys : (tally.map Prod.fst).Nodup) :
    (top_contributors_final tally).length ≤ 10 ∧
    ((top_contributors_final tally).map Prod.fst).Nodup ∧
    (top_contributors_final tally).Sorted byCountDesc ∧
    (∀ c : Nat, (top_contributors_final tally).filter (fun p => p.2 == c) <+:
      tally.filter (fun p => p.2 == c)) := by
  have hperm : List.Perm (tally.insertionSort byCountDesc) tally :=
    List.perm_insertionSort byCountDesc tally
  refine ⟨?_, ?_, ?_, ?_⟩
  · simp [top_contributors_final]
  · have h1 : ((tally.insertionSort byCountDesc).map Prod.fst).Nodup :=
      ((hperm.map Prod.fst).nodup_iff).mpr hkeys
    have h2 : List.Sublist ((top_contributors_final tally).map Prod.fst)
        ((tally.insertionSort byCountDesc).map Prod.fst) :=
      (List.take_sublist 10 _).map Prod.fst
    exact h1.sublist h2
  · exact (List.sorted_insertionSort byCountDesc tally).sublist
      (List.take_sublist 10 _)
  · intro c
    refine ⟨((tally.insertionSort byCountDesc).drop 10).filter (fun p => p.2 == c), ?_⟩
    rw [top_contributors_final, ← List.filter_append, List.take_append_drop,
      filter_insertionSort_byCountDesc]

/-- Concrete instance of C4 on a tally with distinct keys: the output is
the count-descending stable reordering. -/
theorem top_contributors_spec_witness :
    (top_contributors_final [("a", 1), ("b", 2), ("c", 2)]).length ≤ 10 ∧
    ((top_contributors_final [("a", 1), ("b", 2), ("c", 2)]).map Prod.fst).Nodup ∧
    (top_contributors_final [("a", 1), ("b", 2), ("c", 2)]).Sorted byCountDesc ∧
    (∀ c : Nat,
      (top_contributors_final [("a", 1), ("b", 2), ("c", 2)]).filter
          (fun p => p.2 == c) <+:
        [("a", 1), ("b", 2), ("c", 2)].filter (fun p => p.2 == c)) :=
  top_contributors_spec [("a", 1), ("b", 2), ("c", 2)] (by decide)

/-- The collection loop is the accumulator form of a `filterMap`. -/
theorem collect_loop_foldl (f : ℤ → Except String ActivityMetrics)
    (dates : List ℤ) (acc : List ActivityMetrics) :
    dates.foldl (fun acc d =>
        match f d with
        | .ok m => acc ++ [m]
        | .error _ => acc) acc =
      acc ++ dates.filterMap (fun d => (f d).toOption) := by
  induction dates generalizing acc with
  | nil => simp
  | cons d dates ih =>
      cases hfd : f d with
      | ok m =>
          simp [List.foldl_cons, List.filterMap_cons, hfd, ih, Except.toOption]
      | error e =>
          simp [List.foldl_cons, List.filterMap_cons, hfd, ih, Except.toOption]

/-- Counting the successful days: the loop output has exactly one record
per date whose collection succeeded. -/
theorem filterMap_length_countP (f : ℤ → Except String ActivityMetrics)
    (dates : List ℤ) :
    (dates.filterMap (fun d => (f d).toOption)).length =
      (dates.filter (fun d => ((f d).toOption).isSome)).length := by
  induction dates with
  | nil => rfl
  | cons d dates ih =>
      cases hfd : (f d).toOption with
      | some m => simp [List.filterMap_cons, List.filter_cons, hfd, ih]
      | none => simp [List.filterMap_cons, List.filter_cons, hfd, ih]

/-- C5: a failure collecting one day's metrics never aborts the run: the
loop over the 30 requested dates is total, each failed day's record is
omitted (the output is the `filterMap` of the per-day results, keeping one
record per successful day in date order, with no backfill), and at most 30
records result. -/
theorem collect_loop_drops_failed_days (f : ℤ → Except String ActivityMetrics)
    (today : ℤ) :
    collect_loop f (dates30 today) =
      (dates30 today).filterMap (fun d => (f d).toOption) ∧
    (collect_loop f (dates30 today)).length =
      ((dates30 today).filter (fun d => ((f d).toOption).isSome)).length ∧
    (collect_loop f (dates30 today)).length ≤ 30 := by
  have h1 : collect_loop f (dates30 today) =
      (dates30 today).filterMap (fun d => (f d).toOption) := by
    rw [collect_loop]
    exact collect_loop_foldl f (dates30 today) []
  refine ⟨h1, ?_, ?_⟩
  · rw [h1]
    exact filterMap_length_countP f (dates30 today)
  · rw [h1]
    calc ((dates30 today).filterMap (fun d => (f d).toOption)).length
        ≤ (dates30 today).length := List.length_filterMap_le _ _
      _ = 30 := by rw [dates30, List.length_map, List.length_range]

/-- C6: with the credential absent, `main` prints the error message and
exits with status 1; the effect trace holds nothing but that printed
message — no fetch happens and no output file is written. -/
theorem missing_token_exits_early (pipeline : List Effect × Nat) :
    main_run none pipeline =
      ([Effect.printed "Error: GITHUB_TOKEN environment variable is required"], 1) ∧
    (main_run none pipeline).2 = 1 ∧
    (main_run none pipeline).1.filter
      (fun e => match e with
        | Effect.printed _ => false
        | _ => true) = [] := by
  refine ⟨rfl, rfl, rfl⟩

/-- Label filtering steps through a cons cell. -/
theorem issuesWithLabel_cons (l : String) (j : Issue) (ds : List Issue) :
    issuesWithLabel l (j :: ds) =
      if j.labels.contains l then j :: issuesWithLabel l ds
      else issuesWithLabel l ds := by
  simp only [issuesWithLabel, List.filter_cons]

/-- C7: in the daily aggregator the `x and x.date() == date` guards make a
null timestamp fall through to no count: an issue with `closed_at = None`
never adds to the issues-closed count nor to the downstream
tasks-completed count of any day, and a release with `published_at = None`
never adds to any day's releases count. The guard branch is a total match,
so it never raises. -/
theorem null_timestamps_never_counted (date : ℤ) (i j : Issue) (r : Release)
    (upstream_issues : List Issue) (upstream_prs : List PullRequest)
    (releases : List Release) (downstream_issues : List Issue) :
    (i.closed_at = none →
      (collect_daily_metrics date (i :: upstream_issues) upstream_prs releases
        downstream_issues).upstream_issues_closed =
      (collect_daily_metrics date upstream_issues upstream_prs releases
        downstream_issues).upstream_issues_closed) ∧
    (r.published_at = none →
      (collect_daily_metrics date upstream_issues upstream_prs (r :: releases)
        downstream_issues).upstream_releases =
      (collect_daily_metrics date upstream_issues upstream_prs releases
        downstream_issues).upstream_releases) ∧
    (j.closed_at = none →
      (collect_daily_metrics date upstream_issues upstream_prs releases
        (j :: downstream_issues)).downstream_tasks_completed =
      (collect_daily_metrics date upstream_issues upstream_prs releases
        downstream_issues).downstream_tasks_completed) := by
  refine ⟨?_, ?_, ?_⟩
  · intro h
    simp [collect_daily_metrics, List.filter_cons, h]
  · intro h
    simp [collect_daily_metrics, List.filter_cons, h]
  · intro h
    simp only [collect_daily_metrics, issuesWithLabel_cons]
    by_cases hl : j.labels.contains "upstream-sync"
    · rw [if_pos hl, List.filter_cons]
      simp [h]
    · rw [if_neg hl]

/-- Concrete instance of C7: prepending a null-`closed_at` issue, a
null-`published_at` release, and a null-`closed_at` sync task changes none
of the three counts. -/
theorem null_timestamps_never_counted_witness :
    (collect_daily_metrics 0 [{ closed_at := none }] [] [] []).upstream_issues_closed =
      (collect_daily_metrics 0 [] [] [] []).upstream_issues_closed ∧
    (collect_daily_metrics 0 [] [] [{ published_at := none }] []).upstream_releases =
      (collect_daily_metrics 0 [] [] [] []).upstream_releases ∧
    (collect_daily_metrics 0 [] [] []
        [{ closed_at := none, labels := ["upstream-sync"] }]).downstream_tasks_completed =
      (collect_daily_metrics 0 [] [] [] []).downstream_tasks_completed :=
  ⟨(null_timestamps_never_counted 0 { closed_at := none }
      { closed_at := none, labels := ["upstream-sync"] } { published_at := none }
      [] [] [] []).1 rfl,
   (null_timestamps_never_counted 0 { closed_at := none }
      { closed_at := none, labels := ["upstream-sync"] } { published_at := none }
      [] [] [] []).2.1 rfl,
   (null_timestamps_never_counted 0 { closed_at := none }
      { closed_at := none, labels := ["upstream-sync"] } { published_at := none }
      [] [] [] []).2.2 rfl⟩

/-- C9: the sync-activities count is the sum, over the three sync labels,
of the number of downstream issues carrying that label and updated on the
requested date — so one issue carrying several of the labels is counted
once per label it carries, as the concrete two-label instance shows. -/
theorem sync_activities_sum_over_labels (date : ℤ) (us : List Issue)
    (ps : List PullRequest) (rs : List Release) (ds : List Issue) :
    (collect_daily_metrics date us ps rs ds).sync_activities =
      (sync_labels.map (fun l =>
        (ds.filter (fun i => (i.updated_at == date) && i.labels.contains l)).length)).sum ∧
    (collect_daily_metrics 0 [] [] []
      [{ labels := ["upstream-sync", "upstream-pr"], updated_at := 0 }]).sync_activities
      = 2 := by
  constructor
  · simp only [collect_daily_metrics, sync_labels, issuesWithLabel,
      List.foldl_cons, List.foldl_nil, List.map_cons, List.map_nil,
      List.sum_cons, List.sum_nil, List.filter_filter]
    omega
  · decide

/-- Bounding every element bounds the running maximum. -/
theorem foldl_max_of_le (rest : List Issue) :
    ∀ a : ℤ, (∀ j ∈ rest, j.updated_at ≤ a) →
      rest.foldl (fun x j => max x j.updated_at) a = a := by
  induction rest with
  | nil => intro a _; rfl
  | cons j rest ih =>
      intro a h
      simp only [List.foldl_cons]
      rw [max_eq_left (h j (by simp))]
      exact ih a (fun k hk => h k (by simp [hk]))

/-- C10: the last-sync lookup is total and never propagates an error: a
failed fetch yields `"Unknown"`, an empty result yields
`"No recent syncs found"`, and otherwise the result is the ISO form of
the maximum `updated_at` among the first (at most) 5 fetched issues —
which, since the fetch is sorted by update time descending, is the most
recent sync time overall. -/
theorem get_last_sync_time_spec :
    (∀ e : String, get_last_sync_time (Except.error e) = "Unknown") ∧
    (get_last_sync_time (Except.ok []) = "No recent syncs found") ∧
    (∀ (i : Issue) (rest : List Issue),
      get_last_sync_time (Except.ok (i :: rest)) =
        isoformat (maxUpdated i (rest.take 4))) ∧
    (∀ (i : Issue) (rest : List Issue),
      List.Sorted (fun a b : Issue => b.updated_at ≤ a.updated_at) (i :: rest) →
      get_last_sync_time (Except.ok (i :: rest)) = isoformat i.updated_at) := by
  refine ⟨fun e => rfl, rfl, fun i rest => rfl, ?_⟩
  intro i rest hs
  show isoformat (maxUpdated i (rest.take 4)) = isoformat i.updated_at
  rw [maxUpdated]
  congr 1
  apply foldl_max_of_le
  intro j hj
  exact (List.rel_of_sorted_cons hs) j (List.take_subset 4 rest hj)

/-- Concrete instance of C10: a failing lookup reports `"Unknown"`, and a
sorted two-issue fetch reports the head's update time. -/
theorem get_last_sync_time_spec_witness :
    get_last_sync_time (Except.error "boom") = "Unknown" ∧
    get_last_sync_time
        (Except.ok [{ updated_at := 5 }, { updated_at := 3 }]) =
      isoformat (5 : ℤ) :=
  ⟨get_last_sync_time_spec.1 "boom",
   get_last_sync_time_spec.2.2.2 { updated_at := 5 } [{ updated_at := 3 }]
     (by decide)⟩

end MonitoringDashboard
